import Mathlib

/-!
Shallow embedding of the `rag-universe` store adapter.

The repository holds two near-duplicate implementations of the same
`UniverseRAG` class; throughout this file the suffix `A` marks the
variant from `src/index.ts` (validation in `init`, no retry, plain
status-text error messages) and the suffix `B` marks the documented
duplicate (constructor-time validation, `handleResponse`, one retry,
fileId trim validation).  Machine strings are Lean `String`s, JSON
documents are the `Json` inductive below, and the HTTP transport is an
oracle supplied as an argument: each fetch attempt either fails at the
transport level with a message or produces a `Response`.
-/

/-- ASCII alphanumeric test, the character class of the source regexes
`[a-zA-Z0-9]`. -/
def isAsciiAlnum (c : Char) : Bool :=
  (97 ≤ c.toNat && c.toNat ≤ 122) ||
  (65 ≤ c.toNat && c.toNat ≤ 90) ||
  (48 ≤ c.toNat && c.toNat ≤ 57)

/-- The characters ECMAScript `String.prototype.trim` removes:
WhiteSpace (tab, VT, FF, space, NBSP, ZWNBSP and the Zs category) and
LineTerminator (LF, CR, LS, PS). -/
def jsWhitespaceChars : List Char :=
  ['\x09', '\x0a', '\x0b', '\x0c', '\x0d', ' ', ' ', ' ',
   ' ', ' ', ' ', ' ', ' ', ' ', ' ',
   ' ', ' ', ' ', ' ', ' ', ' ', ' ',
   ' ', '　', '﻿']

def jsIsWhitespace (c : Char) : Bool :=
  jsWhitespaceChars.contains c

/-- `String.prototype.trim`. -/
def jsTrim (s : String) : String :=
  String.mk (((s.data.dropWhile jsIsWhitespace).reverse.dropWhile
    jsIsWhitespace).reverse)

/-- JSON documents as exchanged with the store.  Numbers are modelled as
integers; no claim touches a fractional payload. -/
inductive Json where
  | null
  | bool (b : Bool)
  | num (n : Int)
  | str (s : String)
  | arr (elems : List Json)
  | obj (fields : List (String × Json))

/-- One hex digit, lower case, as `JSON.stringify` prints in `\u00XX`
escapes. -/
def hexDigit (n : Nat) : Char :=
  if n < 10 then Char.ofNat (48 + n) else Char.ofNat (87 + n)

/-- Escaping of one character inside a JSON string literal, as
`JSON.stringify` performs it. -/
def escapeChar (c : Char) : String :=
  if c = '\"' then "\\\""
  else if c = '\\' then "\\\\"
  else if c = '\x08' then "\\b"
  else if c = '\x09' then "\\t"
  else if c = '\x0a' then "\\n"
  else if c = '\x0c' then "\\f"
  else if c = '\x0d' then "\\r"
  else if c.toNat < 32 then
    "\\u00" ++ String.mk [hexDigit (c.toNat / 16), hexDigit (c.toNat % 16)]
  else String.mk [c]

/-- A JSON string literal: quotes around the escaped characters. -/
def escapeString (s : String) : String :=
  "\"" ++ String.join (s.data.map escapeChar) ++ "\""

mutual

/-- `JSON.stringify` on the `Json` model. -/
def Json.stringify : Json → String
  | .null => "null"
  | .bool true => "true"
  | .bool false => "false"
  | .num n => toString n
  | .str s => escapeString s
  | .arr xs => "[" ++ Json.stringifyElems xs ++ "]"
  | .obj fs => "\x7b" ++ Json.stringifyFields fs ++ "\x7d"

def Json.stringifyElems : List Json → String
  | [] => ""
  | [x] => Json.stringify x
  | x :: xs => Json.stringify x ++ "," ++ Json.stringifyElems xs

def Json.stringifyFields : List (String × Json) → String
  | [] => ""
  | [(k, v)] => escapeString k ++ ":" ++ Json.stringify v
  | (k, v) :: fs =>
      escapeString k ++ ":" ++ Json.stringify v ++ "," ++
        Json.stringifyFields fs

end

/-- Property access `j.k` on a parsed JSON value: a field of an object,
`undefined` (here `none`) on anything else. -/
def Json.getField : Json → String → Option Json
  | .obj fs, k => fs.lookup k
  | _, _ => none

/-- ECMAScript truthiness of a parsed JSON value. -/
def Json.truthy : Json → Bool
  | .null => false
  | .bool b => b
  | .num n => n != 0
  | .str s => s != ""
  | .arr _ => true
  | .obj _ => true

/-- The field value when it is present and truthy, as tested by
`if (errorData.error)`. -/
def Json.fieldTruthy (j : Json) (k : String) : Option Json :=
  match j.getField k with
  | some v => if v.truthy then some v else none
  | none => none

mutual

/-- ECMAScript `String(...)` conversion, as template-literal
interpolation applies it to a parsed JSON value. -/
def jsToString : Json → String
  | .null => "null"
  | .bool true => "true"
  | .bool false => "false"
  | .num n => toString n
  | .str s => s
  | .arr xs => jsJoin xs
  | .obj _ => "[object Object]"

/-- `Array.prototype.join` with the default comma separator; `null`
elements print as the empty string. -/
def jsJoin : List Json → String
  | [] => ""
  | [.null] => ""
  | [x] => jsToString x
  | .null :: xs => "," ++ jsJoin xs
  | x :: xs => jsToString x ++ "," ++ jsJoin xs

end

/-- The error taxonomy of the adapter.  The source throws plain
`Error`s; each constructor here records which throw site fired and the
data the spec's taxonomy assigns to it.  `jsonError` stands for the
`SyntaxError` a rejected `response.json()` raises on a success status
with an unparseable body; its own message text is platform-generated
and abstracted here. -/
inductive Err where
  | configError (msg : String)
  | credentialError (msg : String)
  | validationError (msg : String)
  | transportError (msg : String)
  | apiError (status : Nat) (msg : String)
  | jsonError
deriving DecidableEq

/-- The `message` property of the thrown `Error` object: `apiError`'s
message is the template string built in `handleResponse`. -/
def Err.message : Err → String
  | .configError m => m
  | .credentialError m => m
  | .validationError m => m
  | .transportError m => m
  | .apiError status m => "API request failed: " ++ toString status ++ " - " ++ m
  | .jsonError => "invalid json"

/-- Whether a surfaced error is of the `ApiError` kind. -/
def Err.isApiError : Err → Bool
  | .apiError _ _ => true
  | _ => false

/-- An HTTP response as the adapter observes it: status, status text,
and the body as parsed JSON (`none` when `response.json()` would
reject). -/
structure Response where
  status : Nat
  statusText : String
  body : Option Json

/-- `response.ok`: status in the inclusive range 200–299. -/
def Response.ok (r : Response) : Bool :=
  200 ≤ r.status && r.status ≤ 299

/-- One outbound HTTP request as assembled by `fetchApi`. -/
structure Request where
  url : String
  method : String
  headers : List (String × String)
  body : Option String
deriving DecidableEq

/-- The client state after a completed initialization: the triple the
adapter keeps in memory.  The source field `universe` is renamed
`universeName` because `universe` is a Lean keyword. -/
structure ClientState where
  serverUrl : String
  universeName : String
  token : String
deriving DecidableEq

/-- The request `fetchApi` assembles before attempting any fetch:
`serverUrl + endpoint`, the two fixed headers, and the JSON-serialized
body (`body ? JSON.stringify(body) : undefined`, a truthiness test). -/
def buildRequest (st : ClientState) (endpoint method : String)
    (body : Option Json) : Request :=
  { url := st.serverUrl ++ endpoint
    method := method
    headers := [("Content-Type", "application/json"),
                ("Authorization", "Bearer " ++ st.token)]
    body := match body with
            | some b => if b.truthy then some (Json.stringify b) else none
            | none => none }

/-- The error message `handleResponse` extracts from a non-success
response: the body's truthy `error` field, else its truthy
`description` field, else the status text (also when the body is not
parseable JSON, where the field reads inside the `try` never run). -/
def errorMessageOf (r : Response) : String :=
  match r.body with
  | none => r.statusText
  | some j =>
    match j.fieldTruthy "error" with
    | some v => jsToString v
    | none =>
      match j.fieldTruthy "description" with
      | some v => jsToString v
      | none => r.statusText

/-- `handleResponse` of the documented variant: parsed body on a
success status, otherwise a thrown error carrying the status and the
extracted message. -/
def handleResponse (r : Response) : Except Err Json :=
  if r.ok then
    match r.body with
    | some j => .ok j
    | none => .error .jsonError
  else
    .error (.apiError r.status (errorMessageOf r))

/-- Outcome of one `fetch` call: a transport-level rejection with the
error's message, or an HTTP response. -/
inductive FetchOutcome where
  | fail (msg : String)
  | resp (r : Response)

/-- One attempt of variant B's `fetchApi` body:
`await fetch(...)` then `await this.handleResponse(response)`.  Note
that a thrown `handleResponse` error lands in the same `catch` as a
fetch rejection. -/
def attemptOnce : FetchOutcome → Except Err Json
  | .fail msg => .error (.transportError msg)
  | .resp r => handleResponse r

/-- Variant B's `fetchApi`: build the request once, attempt; on any
thrown error wait a second (time is not modelled), attempt again, and
on a second thrown error surface
`API request failed after retry: <second error message>`.  Returns the
result together with the list of attempted requests. -/
def fetchApiB (st : ClientState) (endpoint method : String)
    (body : Option Json) (t : Nat → FetchOutcome) :
    Except Err Json × List Request :=
  let req := buildRequest st endpoint method body
  match attemptOnce (t 0) with
  | .ok j => (.ok j, [req])
  | .error _ =>
    match attemptOnce (t 1) with
    | .ok j => (.ok j, [req, req])
    | .error e2 =>
        (.error (.transportError
          ("API request failed after retry: " ++ e2.message)), [req, req])

/-- Variant A's `fetchApi` (`src/index.ts`): a single attempt, a plain
`response.json()` on success, and on a non-success status a thrown
error built from the url and status text. -/
def fetchApiA (st : ClientState) (endpoint method : String)
    (body : Option Json) (t : FetchOutcome) :
    Except Err Json × List Request :=
  let req := buildRequest st endpoint method body
  match t with
  | .fail msg => (.error (.transportError msg), [req])
  | .resp r =>
    (if r.ok then
      match r.body with
      | some j => .ok j
      | none => .error .jsonError
     else
      .error (.apiError r.status
        ("API request to " ++ req.url ++ " failed: " ++ r.statusText)),
     [req])

/-- The `/emit` request body
`{universe: universeName, thing: {id: fileId, text: content}}`. -/
def emitBody (universeName fileId content : String) : Json :=
  .obj [("universe", .str universeName),
        ("thing", .obj [("id", .str fileId), ("text", .str content)])]

/-- Variant A `addFile`. -/
def addFileA (st : ClientState) (fileId content : String)
    (t : FetchOutcome) : Except Err Json × List Request :=
  fetchApiA st "/emit" "POST" (some (emitBody st.universeName fileId content)) t

/-- Variant A `updateFile`: a direct delegation to `addFile`. -/
def updateFileA (st : ClientState) (fileId content : String)
    (t : FetchOutcome) : Except Err Json × List Request :=
  addFileA st fileId content t

/-- Variant A `deleteFile`. -/
def deleteFileA (st : ClientState) (fileId : String)
    (t : FetchOutcome) : Except Err Json × List Request :=
  fetchApiA st ("/thing/" ++ st.universeName ++ "/" ++ fileId) "DELETE" none t

/-- Variant A `deleteAllFiles`. -/
def deleteAllFilesA (st : ClientState) (t : FetchOutcome) :
    Except Err Json × List Request :=
  fetchApiA st ("/universe/" ++ st.universeName) "DELETE" none t

/-- Variant B `addFile`: rejects a fileId whose trimmed value is empty
before any fetch, then posts to `/emit`. -/
def addFileB (st : ClientState) (fileId content : String)
    (t : Nat → FetchOutcome) : Except Err Json × List Request :=
  if jsTrim fileId = "" then
    (.error (.validationError "fileId must be a non-empty string"), [])
  else
    fetchApiB st "/emit" "POST" (some (emitBody st.universeName fileId content)) t

/-- Variant B `updateFile`: a direct delegation to `addFile`. -/
def updateFileB (st : ClientState) (fileId content : String)
    (t : Nat → FetchOutcome) : Except Err Json × List Request :=
  addFileB st fileId content t

/-- Variant B `deleteFile`: same trim validation, then a DELETE to the
template-literal path. -/
def deleteFileB (st : ClientState) (fileId : String)
    (t : Nat → FetchOutcome) : Except Err Json × List Request :=
  if jsTrim fileId = "" then
    (.error (.validationError "fileId must be a non-empty string"), [])
  else
    fetchApiB st ("/thing/" ++ st.universeName ++ "/" ++ fileId) "DELETE" none t

/-- Variant B `deleteAllFiles`. -/
def deleteAllFilesB (st : ClientState) (t : Nat → FetchOutcome) :
    Except Err Json × List Request :=
  fetchApiB st ("/universe/" ++ st.universeName) "DELETE" none t

/-- `finalize` of either variant: an empty method body — no request,
no error, no state change.  Modelled as returning the unchanged state,
the (empty) list of attempted requests, and no error. -/
def finalizeOp (st : ClientState) : ClientState × List Request × Option Err :=
  (st, [], none)

/-- The per-character replacement of `serverUrl.replace(/[^a-zA-Z0-9]/g, '_')`:
a left-to-right scan substituting `_` for every character the class
`[a-zA-Z0-9]` does not match. -/
def replaceNonAlnum : List Char → List Char
  | [] => []
  | c :: cs => (if isAsciiAlnum c then c else '_') :: replaceNonAlnum cs

/-- `generateCredentialName` (identical in both variants). -/
def generateCredentialName (serverUrl : String) : String :=
  "universe_token_" ++ String.mk (replaceNonAlnum serverUrl.data)

/-- The configuration object, restricted to the two consumed keys; a
missing key is `none`. -/
structure Config where
  serverUrl : Option String
  universeName : Option String
deriving DecidableEq

/-- ECMAScript falsiness of `config[key]` for a string-or-absent value:
absent (`undefined`) or the empty string. -/
def strFalsy : Option String → Bool
  | none => true
  | some s => s == ""

/-- `/^[a-zA-Z0-9_]+$/.test(s)`: at least one character, all of them
alphanumeric or underscore. -/
def universeNameOk (s : String) : Bool :=
  !(s == "") && s.data.all (fun c => isAsciiAlnum c || c == '_')

/-- Client state between construction and `init` in variant B:
`serverUrl` and the universe name validated and stored, no token yet. -/
structure PreState where
  serverUrl : String
  universeName : String
deriving DecidableEq

/-- Variant B's constructor.  `new URL(serverUrl)` succeeding is host
behaviour outside this repository; it is abstracted as the predicate
`isValidURL` passed explicitly (the real predicate is false on `""`,
which the preceding falsiness test already rejects). -/
def constructorB (isValidURL : String → Bool) (cfg : Config) :
    Except Err PreState :=
  if strFalsy cfg.serverUrl then
    .error (.configError "serverUrl must be specified in the config")
  else if strFalsy cfg.universeName then
    .error (.configError "universe must be specified in the config")
  else
    let su := cfg.serverUrl.getD ""
    let u := cfg.universeName.getD ""
    if !isValidURL su then
      .error (.configError "serverUrl must be a valid URL")
    else if !universeNameOk u then
      .error (.configError "universe must be alphanumeric with underscores")
    else
      .ok { serverUrl := su, universeName := u }

/-- Variant B's `init`: look the derived credential name up (absent or
empty fails), then store the token next to the constructor-validated
fields. -/
def initB (creds : List (String × String)) (pre : PreState) :
    Except Err ClientState :=
  let name := generateCredentialName pre.serverUrl
  match creds.lookup name with
  | none => .error (.credentialError ("Credential \"" ++ name ++ "\" is required"))
  | some tok =>
    if tok == "" then
      .error (.credentialError ("Credential \"" ++ name ++ "\" is required"))
    else
      .ok { serverUrl := pre.serverUrl, universeName := pre.universeName,
            token := tok }

/-- The mutable fields of a variant A instance; each is `none` until
`init` assigns it. -/
structure StateA where
  serverUrl : Option String
  universeName : Option String
  token : Option String
deriving DecidableEq

/-- Variant A's `init(credentials, config)`: config presence checks,
credential lookup, then the three assignments.  The pair returned is
the state after the call and the thrown error if any; every throw
happens before the first assignment, so on an error the state comes
back unchanged. -/
def initA (creds : List (String × String)) (cfg : Config) (st : StateA) :
    StateA × Option Err :=
  if strFalsy cfg.serverUrl then
    (st, some (.configError "serverUrl must be specified in the config"))
  else if strFalsy cfg.universeName then
    (st, some (.configError "universe must be specified in the config"))
  else
    let su := cfg.serverUrl.getD ""
    let name := generateCredentialName su
    match creds.lookup name with
    | none =>
        (st, some (.credentialError ("Credential \"" ++ name ++ "\" is required")))
    | some tok =>
      if tok == "" then
        (st, some (.credentialError ("Credential \"" ++ name ++ "\" is required")))
      else
        ({ serverUrl := cfg.serverUrl, universeName := cfg.universeName,
           token := some tok }, none)

/-- The mocked 404 response of the spec's retry test: status 404 with
body `\x7b"error":"not found"\x7d`. -/
def resp404 : Response :=
  { status := 404, statusText := "Not Found",
    body := some (.obj [("error", .str "not found")]) }

/-- Each character the scan of `replace(/[^a-zA-Z0-9]/g, '_')` emits is
the pointwise sanitization of the corresponding input character. -/
theorem replaceNonAlnum_eq_map (cs : List Char) :
    replaceNonAlnum cs = cs.map (fun c => if isAsciiAlnum c then c else '_') := by
  induction cs with
  | nil => rfl
  | cons c cs ih => simp [replaceNonAlnum, ih]

/-- Every request `fetchApi` (variant B) attempts is the one request it
assembled before the first attempt. -/
theorem fetchApiB_requests (st : ClientState) (endpoint method : String)
    (body : Option Json) (t : Nat → FetchOutcome) :
    ∀ req ∈ (fetchApiB st endpoint method body t).snd,
      req = buildRequest st endpoint method body := by
  intro req hreq
  unfold fetchApiB at hreq
  cases h0 : attemptOnce (t 0) <;> rw [h0] at hreq
  · cases h1 : attemptOnce (t 1) <;> rw [h1] at hreq <;> simp at hreq <;> exact hreq
  · simp at hreq; exact hreq

/-- `fetchApi` (variant B) always attempts at least one request. -/
theorem fetchApiB_snd_ne_nil (st : ClientState) (endpoint method : String)
    (body : Option Json) (t : Nat → FetchOutcome) :
    (fetchApiB st endpoint method body t).snd ≠ [] := by
  unfold fetchApiB
  cases h0 : attemptOnce (t 0)
  · cases h1 : attemptOnce (t 1) <;> simp
  · simp

/-- Claim C1 (code bug evidence).  The claim says an HTTP response with
a non-success status is never retried, so a 404 yields exactly one
attempted request and a surfaced `ApiError`.  The code disagrees with
the claim and with its own comment (`Retry once after a 1-second delay
for network errors`): `handleResponse` is awaited inside the `try`, so
the `ApiError` it throws for a 404 lands in the retry `catch`.  On a
transport that answers every attempt with HTTP 404 and body
`\x7b"error":"not found"\x7d`, `deleteFile("x")` attempts the request
twice and surfaces the retry wrapper around the second `ApiError`
message instead of the `ApiError` itself.  The second conjunct shows
the part of the claim the code does honour: after two transport-level
failures the surfaced error wraps the second failure's message. -/
theorem deleteFile_404_retried :
    deleteFileB ⟨"https://store.example", "myuni", "tok"⟩ "x"
        (fun _ => .resp resp404)
      = (.error (.transportError
          "API request failed after retry: API request failed: 404 - not found"),
         [buildRequest ⟨"https://store.example", "myuni", "tok"⟩
            "/thing/myuni/x" "DELETE" none,
          buildRequest ⟨"https://store.example", "myuni", "tok"⟩
            "/thing/myuni/x" "DELETE" none]) ∧
    deleteFileB ⟨"https://store.example", "myuni", "tok"⟩ "x"
        (fun n => .fail (if n = 0 then "first failure" else "second failure"))
      = (.error (.transportError
          "API request failed after retry: second failure"),
         [buildRequest ⟨"https://store.example", "myuni", "tok"⟩
            "/thing/myuni/x" "DELETE" none,
          buildRequest ⟨"https://store.example", "myuni", "tok"⟩
            "/thing/myuni/x" "DELETE" none]) :=
  ⟨rfl, rfl⟩

/-- Claim C2: `updateFile` delegates directly to `addFile` in both
variants, so for equal arguments the two produce the identical result
and the identical attempted requests. -/
theorem updateFile_eq_addFile (st : ClientState) (fileId content : String)
    (tA : FetchOutcome) (tB : Nat → FetchOutcome) :
    updateFileA st fileId content tA = addFileA st fileId content tA ∧
    updateFileB st fileId content tB = addFileB st fileId content tB :=
  ⟨rfl, rfl⟩

/-- Claim C3: the derived credential name is `universe_token_` followed
by the serverUrl with every character outside `[A-Za-z0-9]` replaced by
`_` and every alphanumeric character preserved in place (the map is
positional: the output is exactly the 15-character prefix plus one
output character per input character).  Determinism and purity hold
because `generateCredentialName` is a total function of its argument. -/
theorem generateCredentialName_spec (s : String) :
    (generateCredentialName s).data
      = "universe_token_".data
          ++ s.data.map (fun c => if isAsciiAlnum c then c else '_') ∧
    (generateCredentialName s).length = "universe_token_".length + s.length := by
  have hdata : (generateCredentialName s).data
      = "universe_token_".data
          ++ s.data.map (fun c => if isAsciiAlnum c then c else '_') := by
    rw [generateCredentialName, String.data_append, replaceNonAlnum_eq_map]
  refine ⟨hdata, ?_⟩
  show (generateCredentialName s).data.length
      = "universe_token_".data.length + s.data.length
  rw [hdata]
  simp
  omega

/-- Claim C4: construction (the validating variant's constructor)
fails with a `ConfigError` whenever `serverUrl` is missing/falsy or
does not parse as a URL (`new URL` success abstracted as the predicate
`f`), or the universe name is missing/falsy or fails
`^[a-zA-Z0-9_]+$` (conjuncts 2-5); conversely a configuration whose
`serverUrl` is present, non-empty and URL-valid and whose universe
name matches the regex is accepted (conjunct 1); and every rejection
whatsoever is a `ConfigError` (conjunct 6). -/
theorem constructor_validation (f : String → Bool) (cfg : Config) :
    (∀ su u, cfg.serverUrl = some su → cfg.universeName = some u →
      su ≠ "" → f su = true → universeNameOk u = true →
      constructorB f cfg = .ok { serverUrl := su, universeName := u }) ∧
    (strFalsy cfg.serverUrl = true →
      ∃ msg, constructorB f cfg = .error (.configError msg)) ∧
    (strFalsy cfg.universeName = true →
      ∃ msg, constructorB f cfg = .error (.configError msg)) ∧
    (∀ su, cfg.serverUrl = some su → f su = false →
      ∃ msg, constructorB f cfg = .error (.configError msg)) ∧
    (∀ u, cfg.universeName = some u → universeNameOk u = false →
      ∃ msg, constructorB f cfg = .error (.configError msg)) ∧
    (∀ e, constructorB f cfg = .error e → ∃ msg, e = .configError msg) := by
  refine ⟨?_, ?_, ?_, ?_, ?_, ?_⟩
  · intro su u hsu hu hsu2 hf huok
    have hu2 : u ≠ "" := by
      intro habs
      rw [habs] at huok
      simp [universeNameOk] at huok
    simp [constructorB, hsu, hu, strFalsy, hsu2, hu2, hf, huok]
  · intro h1
    exact ⟨"serverUrl must be specified in the config",
      by simp [constructorB, h1]⟩
  · intro h2
    by_cases h1 : strFalsy cfg.serverUrl = true
    · exact ⟨"serverUrl must be specified in the config",
        by simp [constructorB, h1]⟩
    · exact ⟨"universe must be specified in the config",
        by simp [constructorB, h1, h2]⟩
  · intro su hsu hf
    by_cases h1 : strFalsy cfg.serverUrl = true
    · exact ⟨"serverUrl must be specified in the config",
        by simp [constructorB, h1]⟩
    · by_cases h2 : strFalsy cfg.universeName = true
      · exact ⟨"universe must be specified in the config",
          by simp [constructorB, h1, h2]⟩
      · have h1b : ¬ su = "" := by
          intro habs; apply h1; rw [hsu, habs]; rfl
        have h2f : strFalsy cfg.universeName = false := by
          revert h2; cases strFalsy cfg.universeName <;> simp
        have hsf : strFalsy (some su) = false := by simp [strFalsy, h1b]
        exact ⟨"serverUrl must be a valid URL",
          by simp [constructorB, hsu, hsf, h2f, hf]⟩
  · intro u hu hbad
    by_cases h1 : strFalsy cfg.serverUrl = true
    · exact ⟨"serverUrl must be specified in the config",
        by simp [constructorB, h1]⟩
    · by_cases h2 : strFalsy cfg.universeName = true
      · exact ⟨"universe must be specified in the config",
          by simp [constructorB, h1, h2]⟩
      · by_cases h3 : f (cfg.serverUrl.getD "") = true
        · have h2b : ¬ u = "" := by
            intro habs; apply h2; rw [hu, habs]; rfl
          have h1f : strFalsy cfg.serverUrl = false := by
            revert h1; cases strFalsy cfg.serverUrl <;> simp
          have hsf : strFalsy (some u) = false := by simp [strFalsy, h2b]
          exact ⟨"universe must be alphanumeric with underscores",
            by simp [constructorB, hu, h1f, hsf, h3, hbad]⟩
        · have h3f : f (cfg.serverUrl.getD "") = false := by
            revert h3; cases f (cfg.serverUrl.getD "") <;> simp
          exact ⟨"serverUrl must be a valid URL",
            by simp [constructorB, h1, h2, h3f]⟩
  · intro e he
    simp only [constructorB] at he
    split_ifs at he
    all_goals exact ⟨_, (Except.error.inj he).symm⟩

/-- Witness for C4: a concrete well-formed configuration is accepted,
and a concrete universe name with a space is rejected with a
`ConfigError`. -/
theorem constructor_validation_witness :
    constructorB (fun _ => true) ⟨some "http://a", some "uni_1"⟩
      = .ok { serverUrl := "http://a", universeName := "uni_1" } ∧
    (∃ msg, constructorB (fun _ => true) ⟨some "http://a", some "bad name"⟩
      = .error (.configError msg)) :=
  ⟨(constructor_validation (fun _ => true) ⟨some "http://a", some "uni_1"⟩).1
      "http://a" "uni_1" rfl rfl (by decide) rfl (by decide),
   (constructor_validation (fun _ => true)
      ⟨some "http://a", some "bad name"⟩).2.2.2.2.1
      "bad name" rfl (by decide)⟩

/-- Claim C5: a successful `addFile` attempts exactly one request: a
POST to `serverUrl ++ "/emit"` whose headers are the JSON content type
and the bearer token and whose body is the serialization of
`\x7buniverse, thing: \x7bid, text\x7d\x7d`.  Variant A attempts
exactly that one request on every transport outcome; variant B, when
the first attempt yields a success response, returns its parsed body
having attempted exactly that one request. -/
theorem addFile_emit_request (st : ClientState) (fileId content : String)
    (tA : FetchOutcome) (tB : Nat → FetchOutcome) (r : Response) (j : Json)
    (hfi : jsTrim fileId ≠ "") (hB0 : tB 0 = .resp r)
    (hok : r.ok = true) (hbody : r.body = some j) :
    (addFileA st fileId content tA).snd
        = [buildRequest st "/emit" "POST"
            (some (emitBody st.universeName fileId content))] ∧
    addFileB st fileId content tB
        = (.ok j, [buildRequest st "/emit" "POST"
            (some (emitBody st.universeName fileId content))]) ∧
    buildRequest st "/emit" "POST" (some (emitBody st.universeName fileId content))
      = { url := st.serverUrl ++ "/emit", method := "POST",
          headers := [("Content-Type", "application/json"),
                      ("Authorization", "Bearer " ++ st.token)],
          body := some (Json.stringify (.obj [("universe", .str st.universeName),
                    ("thing", .obj [("id", .str fileId),
                                    ("text", .str content)])])) } := by
  refine ⟨?_, ?_, rfl⟩
  · cases tA <;> rfl
  · rw [addFileB, if_neg hfi]
    have ha : attemptOnce (tB 0) = .ok j := by
      rw [hB0]; simp [attemptOnce, handleResponse, hok, hbody]
    unfold fetchApiB
    rw [ha]

/-- Witness for C5: the spec's example request, with the serialized
body evaluated to its literal JSON text. -/
theorem addFile_emit_request_witness :
    jsTrim "doc1" ≠ "" ∧
    addFileB ⟨"https://store.example", "myuni", "tok123"⟩ "doc1" "hello world"
        (fun _ => .resp ⟨200, "OK", some (.obj [])⟩)
      = (.ok (.obj []),
         [{ url := "https://store.example/emit", method := "POST",
            headers := [("Content-Type", "application/json"),
                        ("Authorization", "Bearer tok123")],
            body := some "\x7b\"universe\":\"myuni\",\"thing\":\x7b\"id\":\"doc1\",\"text\":\"hello world\"\x7d\x7d" }]) := by
  have h := addFile_emit_request ⟨"https://store.example", "myuni", "tok123"⟩
    "doc1" "hello world" (.fail "unused")
    (fun _ => .resp ⟨200, "OK", some (.obj [])⟩) ⟨200, "OK", some (.obj [])⟩
    (.obj []) (by decide) rfl rfl rfl
  exact ⟨by decide, h.2.1.trans (by rfl)⟩

/-- Claim C6 (amended): per attempt, `handleResponse` yields the
parsed JSON body for a success-status response, and for a non-success
status an `ApiError` carrying the HTTP status code and a message taken
from the body's truthy `error` field, else its truthy `description`
field, else the HTTP status text (in particular whenever the body is
not parseable JSON).  The original operation-level claim fails on both
variants — see the counterexample below. -/
theorem handleResponse_spec (r : Response) :
    (r.ok = true → ∀ j, r.body = some j → handleResponse r = .ok j) ∧
    (r.ok = false →
      handleResponse r = .error (.apiError r.status (errorMessageOf r))) ∧
    (r.body = none → errorMessageOf r = r.statusText) ∧
    (∀ j v, r.body = some j → j.fieldTruthy "error" = some v →
      errorMessageOf r = jsToString v) ∧
    (∀ j v, r.body = some j → j.fieldTruthy "error" = none →
      j.fieldTruthy "description" = some v → errorMessageOf r = jsToString v) ∧
    (∀ j, r.body = some j → j.fieldTruthy "error" = none →
      j.fieldTruthy "description" = none → errorMessageOf r = r.statusText) := by
  refine ⟨?_, ?_, ?_, ?_, ?_, ?_⟩
  · intro hok j hb; simp [handleResponse, hok, hb]
  · intro hok; simp [handleResponse, hok]
  · intro hb; simp [errorMessageOf, hb]
  · intro j v hb he; simp [errorMessageOf, hb, he]
  · intro j v hb he hd; simp [errorMessageOf, hb, he, hd]
  · intro j hb he hd; simp [errorMessageOf, hb, he, hd]

/-- Witness for C6: the spec's mocked 404 with body
`\x7b"error":"not found"\x7d` becomes `ApiError` with status 404 and
message `not found`. -/
theorem handleResponse_spec_witness :
    Response.ok ⟨404, "Not Found", some (.obj [("error", .str "not found")])⟩
        = false ∧
    handleResponse ⟨404, "Not Found", some (.obj [("error", .str "not found")])⟩
      = .error (.apiError 404 "not found") := by
  have h := handleResponse_spec
    ⟨404, "Not Found", some (.obj [("error", .str "not found")])⟩
  have hmsg := h.2.2.2.1 (.obj [("error", .str "not found")]) (.str "not found")
    rfl rfl
  have h2 := h.2.1 rfl
  rw [hmsg] at h2
  exact ⟨rfl, h2⟩

/-- Counterexample to claim C6 as stated at operation level, on the
404 response with body `\x7b"error":"not found"\x7d`.  Variant B's
`deleteFile` surfaces the retry wrapper, which is not of the
`ApiError` kind (conjuncts 1-2).  Variant A's `deleteFile` does fail
with an `ApiError` carrying the status, but its message is built from
the url and status text alone, while the message the claim requires —
the body's `error` field — is `not found` (conjuncts 3-4). -/
theorem operation_apiError_counterexample :
    (deleteFileB ⟨"https://store.example", "myuni", "tok"⟩ "x"
        (fun _ => .resp resp404)).fst
      = .error (.transportError
          "API request failed after retry: API request failed: 404 - not found") ∧
    Err.isApiError (.transportError
        "API request failed after retry: API request failed: 404 - not found")
      = false ∧
    (deleteFileA ⟨"https://store.example", "myuni", "tok"⟩ "x"
        (.resp resp404)).fst
      = .error (.apiError 404
          "API request to https://store.example/thing/myuni/x failed: Not Found") ∧
    errorMessageOf resp404 = "not found" :=
  ⟨rfl, rfl, rfl, rfl⟩

/-- Claim C7: with a present, non-empty `serverUrl` and universe name,
`init` fails with a `CredentialError` and leaves the state untouched
when the derived credential name is absent or maps to the empty string;
with a present non-empty credential it succeeds and stores exactly
`serverUrl`, the universe name and the token; and the stored result is
independent of the prior state, so a second successful call simply
overwrites with the latest values. -/
theorem init_stores_state (creds : List (String × String)) (cfg : Config)
    (st : StateA) (su u : String)
    (hsu : cfg.serverUrl = some su) (hsu2 : su ≠ "")
    (hu : cfg.universeName = some u) (hu2 : u ≠ "") :
    ((creds.lookup (generateCredentialName su) = none ∨
      creds.lookup (generateCredentialName su) = some "") →
      initA creds cfg st =
        (st, some (.credentialError
          ("Credential \"" ++ generateCredentialName su ++ "\" is required")))) ∧
    (∀ tok, creds.lookup (generateCredentialName su) = some tok → tok ≠ "" →
      initA creds cfg st =
        ({ serverUrl := some su, universeName := some u, token := some tok },
         none)) ∧
    (∀ tok st2, creds.lookup (generateCredentialName su) = some tok → tok ≠ "" →
      (initA creds cfg st).fst = (initA creds cfg st2).fst) := by
  have key : ∀ (tok : String) (st' : StateA),
      creds.lookup (generateCredentialName su) = some tok → tok ≠ "" →
      initA creds cfg st' =
        ({ serverUrl := some su, universeName := some u, token := some tok },
         none) := by
    intro tok st' hl ht
    simp [initA, hsu, hu, strFalsy, hsu2, hu2, hl, ht]
  refine ⟨?_, fun tok hl ht => key tok st hl ht,
    fun tok st2 hl ht => by rw [key tok st hl ht, key tok st2 hl ht]⟩
  intro hcase
  rcases hcase with hl | hl <;> simp [initA, hsu, hu, strFalsy, hsu2, hu2, hl]

/-- Witness for C7: a concrete credential mapping initializes a blank
instance to the stored triple. -/
theorem init_stores_state_witness :
    initA [("universe_token_http___a", "tok")] ⟨some "http://a", some "u1"⟩
        ⟨none, none, none⟩
      = ({ serverUrl := some "http://a", universeName := some "u1",
           token := some "tok" }, none) :=
  (init_stores_state [("universe_token_http___a", "tok")]
    ⟨some "http://a", some "u1"⟩ ⟨none, none, none⟩ "http://a" "u1"
    rfl (by decide) rfl (by decide)).2.1 "tok" rfl (by decide)

/-- Claim C8: `finalize` always succeeds, attempts no request, and
leaves the client state unchanged, whatever that state is. -/
theorem finalize_noop (st : ClientState) :
    finalizeOp st = (st, [], none) := rfl

/-- Claim C9: every request `deleteFile` attempts has the literal
concatenation `serverUrl ++ "/thing/" ++ universeName ++ "/" ++ fileId`
as its url, with no encoding applied to `fileId`; consequently a
`fileId` containing `/` changes the path structure, as the final
conjunct shows: universe `u` with fileId `a/b` is indistinguishable
from universe `u/a` with fileId `b`. -/
theorem deleteFile_path_concat (st : ClientState) (fileId : String)
    (t : Nat → FetchOutcome) (h : jsTrim fileId ≠ "") :
    (∀ req ∈ (deleteFileB st fileId t).snd,
        req.url = st.serverUrl ++ "/thing/" ++ st.universeName ++ "/" ++ fileId ∧
        req.method = "DELETE" ∧ req.body = none) ∧
    (deleteFileB st fileId t).snd ≠ [] ∧
    deleteFileB ⟨"http://h", "u", "tk"⟩ "a/b" t
      = deleteFileB ⟨"http://h", "u/a", "tk"⟩ "b" t := by
  refine ⟨?_, ?_, rfl⟩
  · intro req hreq
    rw [deleteFileB, if_neg h] at hreq
    have := fetchApiB_requests st ("/thing/" ++ st.universeName ++ "/" ++ fileId)
      "DELETE" none t req hreq
    subst this
    refine ⟨?_, rfl, rfl⟩
    simp [buildRequest, String.append_assoc]
  · rw [deleteFileB, if_neg h]
    exact fetchApiB_snd_ne_nil st _ "DELETE" none t

/-- Witness for C9: the ambiguity instance evaluated on a concrete
transport. -/
theorem deleteFile_path_concat_witness :
    (deleteFileB ⟨"http://h", "u", "tk"⟩ "a/b" (fun _ => .fail "refused")).snd
        ≠ [] ∧
    deleteFileB ⟨"http://h", "u", "tk"⟩ "a/b" (fun _ => .fail "refused")
      = deleteFileB ⟨"http://h", "u/a", "tk"⟩ "b" (fun _ => .fail "refused") :=
  (deleteFile_path_concat ⟨"http://h", "u", "tk"⟩ "a/b"
    (fun _ => .fail "refused") (by decide)).2

/-- Claim C10: in the validating variant, `addFile`, `updateFile` and
`deleteFile` reject a `fileId` whose trimmed value is empty with a
`ValidationError` and attempt no request at all. -/
theorem trimmed_fileId_rejected (st : ClientState) (fileId content : String)
    (t : Nat → FetchOutcome) (h : jsTrim fileId = "") :
    addFileB st fileId content t
        = (.error (.validationError "fileId must be a non-empty string"), []) ∧
    updateFileB st fileId content t
        = (.error (.validationError "fileId must be a non-empty string"), []) ∧
    deleteFileB st fileId t
        = (.error (.validationError "fileId must be a non-empty string"), []) := by
  refine ⟨?_, ?_, ?_⟩ <;> simp [addFileB, updateFileB, deleteFileB, h]

/-- Witness for C10: the single-space `fileId`, non-empty as a string
but empty once trimmed, is rejected before any request. -/
theorem trimmed_fileId_rejected_witness :
    jsTrim " " = "" ∧
    addFileB ⟨"http://h", "u", "tk"⟩ " " "c" (fun _ => .fail "refused")
      = (.error (.validationError "fileId must be a non-empty string"), []) :=
  ⟨rfl, (trimmed_fileId_rejected ⟨"http://h", "u", "tk"⟩ " " "c"
      (fun _ => .fail "refused") rfl).1⟩
